import Mathlib

/-
Verification of the client-side file intake, content extraction, request
composition and PDF export pipeline implemented in
frontend/src/components/Dashboard.jsx.

The JavaScript code is shallowly embedded: JS strings are Lean Strings
(their character data is a List Char where character-level operations
matter), JS numbers used for sizes and counts are Nat, JS numbers used
for ids and canvas geometry are Rat, promises that resolve or reject are
Except String values, and the DOM / alert side effects are recorded
explicitly in result structures.
-/

/-! ## File intake and validation (processFiles / removeFile) -/

/-- A candidate file handed to processFiles by the picker or a drop event:
its display name, byte size and declared MIME type. -/
structure CandidateFile where
  name : String
  size : Nat
  ftype : String
deriving DecidableEq

/-- An accepted file descriptor, as built in processFiles:
id is Date.now() + Math.random() (a JS number, embedded as Rat),
the remaining fields copy the candidate file. -/
structure FileDesc where
  id : Rat
  name : String
  size : Nat
  ftype : String
deriving DecidableEq

/-- Result of one processFiles call: the new accepted-file collection and
the alert messages raised during the call. -/
structure IntakeResult where
  files : List FileDesc
  alerts : List String
deriving DecidableEq

/-- VALID_FILE_TYPES from processFiles. -/
def VALID_FILE_TYPES : List String :=
  ["application/pdf", "text/markdown", "text/x-markdown",
   "application/vnd.openxmlformats-officedocument.wordprocessingml.document"]

/-- MAX_FILE_SIZE from processFiles: 10 * 1024 * 1024 bytes. -/
def MAX_FILE_SIZE : Nat := 10 * 1024 * 1024

/-- MAX_FILES_COUNT from processFiles. -/
def MAX_FILES_COUNT : Nat := 10

/-- The filter predicate of processFiles: reject when the declared type is
not in VALID_FILE_TYPES, then reject when file.size > MAX_FILE_SIZE. -/
def isValidFile (f : CandidateFile) : Bool :=
  if ¬ (f.ftype ∈ VALID_FILE_TYPES) then false
  else if MAX_FILE_SIZE < f.size then false
  else true

/-- Alert text for rejected files (type or size). -/
def rejectedAlert (n : Nat) : String :=
  toString n ++ " file(s) were rejected. Only PDF, MD, and DOCX files under 10MB are allowed."

/-- Alert text for a batch truncated to the remaining capacity. -/
def capacityAlert (n : Nat) : String :=
  "Only " ++ toString n ++ " more file(s) can be added. Maximum 10 files allowed."

/-- Alert text for a batch rejected because the collection is full. -/
def maxFilesAlert : String :=
  "Maximum 10 files already uploaded. Please remove some files first."

/-- validFiles.map(file => ({ id: Date.now() + Math.random(), ... })):
each map step draws a fresh value from the ambient id source, embedded as
an oracle stream ids indexed by position. -/
def mkDescs (ids : Nat → Rat) : Nat → List CandidateFile → List FileDesc
  | _, [] => []
  | i, c :: cs => ⟨ids i, c.name, c.size, c.ftype⟩ :: mkDescs ids (i + 1) cs

/-- processFiles (Dashboard.jsx lines 26-74): filter the batch by type and
size, alert on rejections, return unchanged on an empty valid set, truncate
to remaining capacity (validFiles.splice(canAdd)) or reject the whole batch
when the collection is full, then append the new descriptors. -/
def processFiles (current : List FileDesc) (batch : List CandidateFile)
    (ids : Nat → Rat) : IntakeResult :=
  let validFiles := batch.filter isValidFile
  let alerts0 : List String :=
    if validFiles.length ≠ batch.length then
      [rejectedAlert (batch.length - validFiles.length)]
    else []
  if validFiles.length = 0 then ⟨current, alerts0⟩
  else if MAX_FILES_COUNT < current.length + validFiles.length then
    let canAdd : Int := (MAX_FILES_COUNT : Int) - current.length
    if 0 < canAdd then
      ⟨current ++ mkDescs ids 0 (validFiles.take canAdd.toNat),
       alerts0 ++ [capacityAlert canAdd.toNat]⟩
    else
      ⟨current, alerts0 ++ [maxFilesAlert]⟩
  else
    ⟨current ++ mkDescs ids 0 validFiles, alerts0⟩

/-- removeFile (Dashboard.jsx lines 94-96):
setUploadedFiles(prev => prev.filter(f => f.id !== fileId)). -/
def removeFile (current : List FileDesc) (fileId : Rat) : List FileDesc :=
  current.filter fun f => decide (f.id ≠ fileId)

/-- One user-driven intake operation: an upload batch (picker or drop both
reach processFiles) with its ambient id stream, or a removal by id. -/
inductive Op where
  | upload (batch : List CandidateFile) (ids : Nat → Rat)
  | remove (fileId : Rat)

/-- Apply one intake operation to the accepted-file collection. -/
def applyOp (s : List FileDesc) : Op → List FileDesc
  | Op.upload batch ids => (processFiles s batch ids).files
  | Op.remove i => removeFile s i

/-- The accepted-file collection reached from the initial empty state
(useState([])) by a sequence of intake operations. -/
def runOps (ops : List Op) : List FileDesc := ops.foldl applyOp []

/-- The state invariant claimed for the intake component. -/
def intakeInv (s : List FileDesc) : Prop :=
  s.length ≤ MAX_FILES_COUNT ∧
  ∀ f ∈ s, f.ftype ∈ VALID_FILE_TYPES ∧ f.size ≤ MAX_FILE_SIZE

/-! ## Content extraction (readFileContent) -/

/-- Whether pat occurs at the start of the second list (character lists of
JS strings). -/
def startsWithL : List Char → List Char → Bool
  | [], _ => true
  | _ :: _, [] => false
  | p :: ps, c :: cs => (p == c) && startsWithL ps cs

/-- Whether pat occurs anywhere in hay: the embedding of
JavaScript String.prototype.includes. -/
def hasSubL (pat : List Char) : List Char → Bool
  | [] => startsWithL pat []
  | c :: t => startsWithL pat (c :: t) || hasSubL pat t

/-- s.includes(pat) on JS strings. -/
def strIncludes (s pat : String) : Bool := hasSubL pat.data s.data

/-- The placeholder resolved for application/pdf files. -/
def pdfPlaceholder (fname : String) : List Char :=
  ("[PDF Document: " ++ fname ++
    "]\n\nThis is a PDF document. The content will be processed on the server side for better text extraction and analysis.").data

/-- The placeholder resolved for wordprocessingml (DOCX) files. -/
def docxPlaceholder (fname : String) : List Char :=
  ("[DOCX Document: " ++ fname ++
    "]\n\nThis is a Word document. The content will be processed on the server side for better text extraction and analysis.").data

/-- The string resolved on the final else branch of readFileContent. -/
def unsupportedMsg (ftype : String) : List Char :=
  ("[Unsupported file type: " ++ ftype ++ "]").data

/-- The marker appended after 50,000 characters of text content. -/
def truncMarker : List Char := "\n\n[Content truncated due to length]".data

/-- The four branches of the if/else chain in readFileContent. -/
inductive ExtractBranch where
  | pdfBranch
  | textBranch
  | docxBranch
  | unsupportedBranch
deriving DecidableEq

/-- The branch selection of readFileContent (Dashboard.jsx lines 98-126):
file.type === 'application/pdf', then
file.type.includes('markdown') || file.type.includes('text'), then
file.type.includes('wordprocessingml'), else unsupported. -/
def readFileBranch (ftype : String) : ExtractBranch :=
  if ftype = "application/pdf" then ExtractBranch.pdfBranch
  else if strIncludes ftype "markdown" || strIncludes ftype "text" then
    ExtractBranch.textBranch
  else if strIncludes ftype "wordprocessingml" then ExtractBranch.docxBranch
  else ExtractBranch.unsupportedBranch

/-- readFileContent as a promise outcome. content is the decoded text of
the underlying file; readOk says whether the FileReader read succeeds
(reader.onerror rejects with Error('Failed to read file'), and a read is
only issued on the text branch). On the text branch content.length > 50000
truncates to content.substring(0, 50000) plus the marker. -/
def readFileContent (ftype fname : String) (content : List Char)
    (readOk : Bool) : Except String (List Char) :=
  match readFileBranch ftype with
  | ExtractBranch.pdfBranch => Except.ok (pdfPlaceholder fname)
  | ExtractBranch.textBranch =>
    if readOk then
      if 50000 < content.length then
        Except.ok (content.take 50000 ++ truncMarker)
      else Except.ok content
    else Except.error "Failed to read file"
  | ExtractBranch.docxBranch => Except.ok (docxPlaceholder fname)
  | ExtractBranch.unsupportedBranch => Except.ok (unsupportedMsg ftype)

/-! ## Request composition (generateBRD) -/

/-- A file as the composer sees it: the descriptor data plus the decoded
text of the underlying payload and whether its FileReader read succeeds. -/
structure UploadedFile where
  name : String
  ftype : String
  content : List Char
  readOk : Bool
deriving DecidableEq

/-- One entry of the uploaded_files array of the outbound payload. -/
structure UploadedFilePayload where
  filename : String
  content : List Char
  ftype : String
deriving DecidableEq

/-- The outbound request: the constructor fixes the endpoint
(fromInput is POST /api/generate_brd_from_input,
withFiles is POST /api/generate_brd_with_files) and the fields carry the
JSON body. -/
inductive Request where
  | fromInput (project_description : String) (model : String)
  | withFiles (project_description : String)
      (uploaded_files : List UploadedFilePayload) (model : String)
deriving DecidableEq

deriving instance DecidableEq for Except

/-- JavaScript a || b on strings: the empty string is falsy. -/
def jsOr (a b : String) : String := if a = "" then b else a

/-- s.toLowerCase() character by character. -/
def jsToLower (s : String) : List Char := s.data.map Char.toLower

/-- file.name.toLowerCase().includes(pat). -/
def toLowerIncl (s pat : String) : Bool := hasSubL pat.data (jsToLower s)

/-- The existing-BRD heuristic of generateBRD (Dashboard.jsx lines 134-138). -/
def hasExistingBRD (files : List UploadedFile) : Bool :=
  files.any fun f =>
    toLowerIncl f.name "brd" || toLowerIncl f.name "business requirements" ||
      toLowerIncl f.name "requirements document"

/-- One arm of the Promise.all map: read a file and build its payload entry
{ filename, content, type }. -/
def readOne (f : UploadedFile) : Except String UploadedFilePayload :=
  match readFileContent f.ftype f.name f.content f.readOk with
  | Except.error e => Except.error e
  | Except.ok c => Except.ok ⟨f.name, c, f.ftype⟩

/-- await Promise.all(uploadedFiles.map(...)): an all-or-nothing join in
which the first rejection (in array order) fails the whole join. -/
def readAll : List UploadedFile → Except String (List UploadedFilePayload)
  | [] => Except.ok []
  | f :: fs =>
    match readOne f with
    | Except.error e => Except.error e
    | Except.ok p =>
      match readAll fs with
      | Except.error e => Except.error e
      | Except.ok ps => Except.ok (p :: ps)

/-- generateBRD (Dashboard.jsx lines 128-222) up to the point where the
single outbound request is dispatched. Except.ok r means the body r is sent
to the endpoint fixed by its constructor; Except.error e means the thrown
error was caught before any fetch, no request is dispatched, the result
state is unchanged and the error state becomes e. -/
def generateBRD (projectDescription additionalInfo : String)
    (files : List UploadedFile) : Except String Request :=
  let hasBRD := hasExistingBRD files
  if 0 < files.length then
    match readAll files with
    | Except.error e => Except.error e
    | Except.ok fileContents =>
      if hasBRD then
        Except.ok (Request.withFiles
          (jsOr additionalInfo "Improve existing BRD document")
          fileContents "gemini-2.0-flash")
      else
        Except.ok (Request.withFiles
          (jsOr projectDescription
            (jsOr additionalInfo "Project requirements from uploaded files"))
          fileContents "gemini-2.0-flash")
  else
    Except.ok (Request.fromInput
      (jsOr projectDescription (jsOr additionalInfo "Project requirements"))
      "gemini-2.0-flash")

/-! ## Paginated PDF export (downloadPDF) -/

/-- Observable outcome of one downloadPDF call: whether the temporary
off-screen container is still attached to document.body when the call
finishes, how many pages the produced document holds, whether pdf.save ran,
and whether the error alert fired. -/
structure PdfRun where
  tempContainerAttached : Bool
  pagesInDoc : Nat
  saved : Bool
  alerted : Bool
deriving DecidableEq

/-- The pagination loop of downloadPDF (lines 327-333): starting from the
given heightLeft, while (heightLeft >= 0) add one page and subtract the
page height 295; returns the number of pages added by the loop. -/
def pagesLoop (heightLeft : Rat) : Nat :=
  if h : 0 ≤ heightLeft then pagesLoop (heightLeft - 295) + 1 else 0
termination_by (⌈heightLeft / 295⌉ + 1).toNat
decreasing_by
  have h295 : ((heightLeft - 295) / 295 : Rat) = heightLeft / 295 - 1 := by
    rw [sub_div]
    norm_num
  have hceil : ⌈(heightLeft - 295) / 295⌉ = ⌈heightLeft / 295⌉ - 1 := by
    rw [h295, Int.ceil_sub_one]
  have hnn : (0 : Int) ≤ ⌈heightLeft / 295⌉ :=
    Int.ceil_nonneg (div_nonneg h (by norm_num))
  omega

/-- The total page count of downloadPDF: jsPDF starts with one page, the
first addImage fills it, heightLeft starts at imgHeight - pageHeight, then
the loop adds the rest. -/
def pdfPageCount (imgHeight : Rat) : Nat := 1 + pagesLoop (imgHeight - 295)

/-- downloadPDF (Dashboard.jsx lines 238-344). rasterOk says whether the
awaited html2canvas call succeeds; canvasWidth and canvasHeight are the
dimensions of the produced canvas. The body appends the temporary container
to document.body, then on success removes it, computes
imgHeight = canvas.height * 210 / canvas.width, paginates and saves; on a
rasterization throw control jumps to the catch block (console.error and
alert) and the removeChild on line 313 is never executed, so the container
stays attached. -/
def downloadPDF (rasterOk : Bool) (canvasWidth canvasHeight : Rat) : PdfRun :=
  if rasterOk then
    let imgWidth : Rat := 210
    let imgHeight := canvasHeight * imgWidth / canvasWidth
    { tempContainerAttached := false
      pagesInDoc := pdfPageCount imgHeight
      saved := true
      alerted := false }
  else
    { tempContainerAttached := true
      pagesInDoc := 0
      saved := false
      alerted := true }

/-! ## Concrete instances used by witnesses and counterexamples -/

/-- Concrete current collection of nine accepted descriptors. -/
def c7current : List FileDesc :=
  List.replicate 9 ⟨0, "base.pdf", 4, "application/pdf"⟩

/-- Concrete two-file valid batch. -/
def c7batch : List CandidateFile :=
  [⟨"x.md", 1, "text/markdown"⟩, ⟨"y.md", 2, "text/markdown"⟩]

/-- Two single-file uploads whose ambient Date.now() + Math.random()
values coincide. -/
def c9ops : List Op :=
  [Op.upload [⟨"a.pdf", 0, "application/pdf"⟩] (fun _ => 5),
   Op.upload [⟨"b.pdf", 0, "application/pdf"⟩] (fun _ => 5)]

/-- A concrete two-descriptor collection with distinct ids. -/
def c9state : List FileDesc :=
  [⟨1, "a.md", 3, "text/markdown"⟩, ⟨2, "b.md", 4, "text/markdown"⟩]

/-- A file whose name matches the existing-BRD heuristic. -/
def c6brdFile : UploadedFile := ⟨"BRD.md", "text/markdown", "old content".data, true⟩

/-- The same file content under a name the heuristic does not match. -/
def c6plainFile : UploadedFile := ⟨"notes.md", "text/markdown", "old content".data, true⟩

/-- A markdown file whose FileReader read fails. -/
def c8file : UploadedFile := ⟨"broken.md", "text/markdown", [], false⟩

/-! ## Intake lemmas -/

theorem isValidFile_spec (c : CandidateFile) :
    isValidFile c = true ↔ c.ftype ∈ VALID_FILE_TYPES ∧ c.size ≤ MAX_FILE_SIZE := by
  unfold isValidFile
  split_ifs with h1 h2 <;> simp_all

theorem mkDescs_length (ids : Nat → Rat) (i : Nat) (l : List CandidateFile) :
    (mkDescs ids i l).length = l.length := by
  induction l generalizing i with
  | nil => rfl
  | cons c cs ih => simp [mkDescs, ih]

theorem mem_mkDescs (ids : Nat → Rat) (i : Nat) (l : List CandidateFile)
    (f : FileDesc) (hf : f ∈ mkDescs ids i l) :
    ∃ c ∈ l, f.size = c.size ∧ f.ftype = c.ftype := by
  induction l generalizing i with
  | nil => cases hf
  | cons c cs ih =>
    rcases List.mem_cons.mp hf with h | h
    · exact ⟨c, List.mem_cons_self c cs, by rw [h], by rw [h]⟩
    · obtain ⟨d, hd, h1, h2⟩ := ih (i + 1) h
      exact ⟨d, List.mem_cons_of_mem c hd, h1, h2⟩

theorem newDesc_ok (b : List CandidateFile) (ids : Nat → Rat) (i : Nat)
    (l : List CandidateFile) (hsub : ∀ c ∈ l, c ∈ b.filter isValidFile)
    (f : FileDesc) (hf : f ∈ mkDescs ids i l) :
    f.ftype ∈ VALID_FILE_TYPES ∧ f.size ≤ MAX_FILE_SIZE := by
  obtain ⟨c, hc, hsz, hty⟩ := mem_mkDescs ids i l f hf
  have hv := (List.mem_filter.mp (hsub c hc)).2
  obtain ⟨hty', hsz'⟩ := (isValidFile_spec c).mp hv
  rw [hsz, hty]
  exact ⟨hty', hsz'⟩

theorem intake_append (s : List FileDesc) (b : List CandidateFile)
    (ids : Nat → Rat)
    (hmem : ∀ f ∈ s, f.ftype ∈ VALID_FILE_TYPES ∧ f.size ≤ MAX_FILE_SIZE)
    (l : List CandidateFile) (hl : ∀ c ∈ l, c ∈ b.filter isValidFile)
    (hlen2 : s.length + l.length ≤ MAX_FILES_COUNT) :
    intakeInv (s ++ mkDescs ids 0 l) := by
  constructor
  · simp only [List.length_append, mkDescs_length]
    exact hlen2
  · intro f hf
    rcases List.mem_append.mp hf with hf | hf
    · exact hmem f hf
    · exact newDesc_ok b ids 0 l hl f hf

theorem processFiles_inv (s : List FileDesc) (b : List CandidateFile)
    (ids : Nat → Rat) (h : intakeInv s) :
    intakeInv (processFiles s b ids).files := by
  obtain ⟨hlen, hmem⟩ := h
  simp only [processFiles]
  split_ifs <;>
    first
    | exact ⟨hlen, hmem⟩
    | exact intake_append s b ids hmem _ (fun c hc => List.take_subset _ _ hc)
        (by simp only [List.length_take]; omega)
    | exact intake_append s b ids hmem _ (fun c hc => hc) (by omega)

theorem removeFile_inv (s : List FileDesc) (i : Rat) (h : intakeInv s) :
    intakeInv (removeFile s i) := by
  obtain ⟨hlen, hmem⟩ := h
  constructor
  · exact le_trans (List.length_filter_le _ s) hlen
  · intro f hf
    exact hmem f (List.mem_of_mem_filter hf)

theorem runOps_inv (ops : List Op) : intakeInv (runOps ops) := by
  have key : ∀ (l : List Op) (s : List FileDesc), intakeInv s →
      intakeInv (l.foldl applyOp s) := by
    intro l
    induction l with
    | nil => intro s hs; exact hs
    | cons op t ih =>
      intro s hs
      apply ih
      cases op with
      | upload batch ids => exact processFiles_inv s batch ids hs
      | remove i => exact removeFile_inv s i hs
  exact key ops [] ⟨by simp [MAX_FILES_COUNT], by simp⟩

/-- Claim C1: for every sequence of intake operations (picker or drop
batches, in any order, interleaved with removals), the accepted-file
collection contains only files whose declared MIME type is in the fixed
allow-list and whose byte size is at most 10 MiB, and the collection never
holds more than 10 files. -/
theorem C1_intake_invariant (ops : List Op) :
    (runOps ops).length ≤ MAX_FILES_COUNT ∧
    ∀ f ∈ runOps ops, f.ftype ∈ VALID_FILE_TYPES ∧ f.size ≤ MAX_FILE_SIZE :=
  runOps_inv ops

/-- Claim C1, instantiated: a concrete overfull upload sequence still
leaves at most 10 accepted files. -/
theorem C1_intake_invariant_witness :
    (runOps [Op.upload (List.replicate 12 ⟨"a.md", 3, "text/markdown"⟩)
        (fun _ => 0)]).length ≤ MAX_FILES_COUNT :=
  (C1_intake_invariant [Op.upload (List.replicate 12 ⟨"a.md", 3, "text/markdown"⟩)
    (fun _ => 0)]).1

/-! ## Capacity truncation (claim C7) -/

/-- Claim C7: for a candidate batch whose valid files would push the
accepted count past 10: when the current count is strictly below 10,
exactly 10 - current_count files are accepted, they are the first valid
files of the batch taken in the batch's original order (a sublist of the
batch); when the current count equals 10, the collection is unchanged and
the whole batch is rejected with the max-files notification. -/
theorem C7_capacity_truncation (current : List FileDesc)
    (batch : List CandidateFile) (ids : Nat → Rat)
    (hover : MAX_FILES_COUNT < current.length + (batch.filter isValidFile).length)
    (hle : current.length ≤ MAX_FILES_COUNT) :
    (current.length < MAX_FILES_COUNT →
        (processFiles current batch ids).files
          = current ++ mkDescs ids 0
              ((batch.filter isValidFile).take (MAX_FILES_COUNT - current.length))
      ∧ ((batch.filter isValidFile).take (MAX_FILES_COUNT - current.length)).length
          = MAX_FILES_COUNT - current.length
      ∧ ((batch.filter isValidFile).take (MAX_FILES_COUNT - current.length)).Sublist batch)
  ∧ (current.length = MAX_FILES_COUNT →
        (processFiles current batch ids).files = current
      ∧ maxFilesAlert ∈ (processFiles current batch ids).alerts) := by
  have hne : (batch.filter isValidFile).length ≠ 0 := by omega
  constructor
  · intro hlt
    have htn : ((MAX_FILES_COUNT : Int) - (current.length : Int)).toNat
        = MAX_FILES_COUNT - current.length := by omega
    refine ⟨?_, ?_, ?_⟩
    · simp only [processFiles]
      split_ifs <;> first | omega | rw [htn]
    · simp only [List.length_take]
      omega
    · exact (List.take_sublist _ _).trans (List.filter_sublist _)
  · intro h10
    constructor
    · simp only [processFiles]
      split_ifs <;> first | rfl | omega
    · simp only [processFiles]
      split_ifs <;> first | omega | simp

/-- Claim C7, instantiated: with nine accepted files, a valid two-file
batch is truncated to its first file. -/
theorem C7_capacity_truncation_witness :
    (processFiles c7current c7batch (fun _ => 0)).files
      = c7current ++ mkDescs (fun _ => 0) 0
          ((c7batch.filter isValidFile).take (MAX_FILES_COUNT - c7current.length)) :=
  ((C7_capacity_truncation c7current c7batch (fun _ => 0) (by decide)
    (by decide)).1 (by decide)).1

/-! ## Temporary container cleanup (claim C2) -/

/-- Claim C2, evaluated at the failing path: when the awaited html2canvas
call throws, downloadPDF finishes with the temporary off-screen container
still attached to document.body — the removeChild on line 313 sits after
the rasterization call inside the try block and neither the catch nor the
finally block detaches the container, so the claimed removal on every
execution path fails. -/
theorem C2_container_leak (canvasWidth canvasHeight : Rat) :
    (downloadPDF false canvasWidth canvasHeight).tempContainerAttached = true := rfl

/-! ## Id uniqueness and removal (claim C9) -/

/-- Claim C9 counterexample: nothing in processFiles enforces id
freshness, so a reachable accepted collection (two uploads whose
Date.now() + Math.random() samples coincide) carries duplicate ids, and
removal by that id removes both descriptors rather than exactly one. -/
theorem C9_counterexample :
    ¬ ((runOps c9ops).map FileDesc.id).Nodup ∧
    (runOps c9ops).length = 2 ∧
    removeFile (runOps c9ops) 5 = [] := by
  decide

/-- Claim C9 as amended: when the ids in the accepted collection happen to
be pairwise distinct, removal by a held id removes exactly the one
descriptor carrying it and leaves every other descriptor unchanged and in
its original relative order. -/
theorem C9_unique_removal (s : List FileDesc) (f : FileDesc) (hf : f ∈ s)
    (hnodup : (s.map FileDesc.id).Nodup) :
    ∃ l1 l2, s = l1 ++ f :: l2 ∧ removeFile s f.id = l1 ++ l2 := by
  obtain ⟨l1, l2, rfl⟩ := List.append_of_mem hf
  refine ⟨l1, l2, rfl, ?_⟩
  rw [List.map_append, List.map_cons, List.nodup_append] at hnodup
  obtain ⟨h1, h2, hdisj⟩ := hnodup
  have hnot2 : f.id ∉ l2.map FileDesc.id := (List.nodup_cons.mp h2).1
  have hid1 : ∀ g ∈ l1, g.id ≠ f.id := by
    intro g hg heq
    exact hdisj (List.mem_map_of_mem FileDesc.id hg)
      (by rw [heq]; exact List.mem_cons_self _ _)
  have hid2 : ∀ g ∈ l2, g.id ≠ f.id := by
    intro g hg heq
    exact hnot2 (by rw [← heq]; exact List.mem_map_of_mem FileDesc.id hg)
  have e1 : l1.filter (fun g => decide (g.id ≠ f.id)) = l1 :=
    List.filter_eq_self.mpr (fun g hg => by simp [hid1 g hg])
  have e2 : l2.filter (fun g => decide (g.id ≠ f.id)) = l2 :=
    List.filter_eq_self.mpr (fun g hg => by simp [hid2 g hg])
  show (l1 ++ f :: l2).filter (fun g => decide (g.id ≠ f.id)) = l1 ++ l2
  rw [List.filter_append, e1, List.filter_cons]
  simpa using hid2

/-- Claim C9 as amended, instantiated on a distinct-id collection. -/
theorem C9_unique_removal_witness :
    ∃ l1 l2, c9state = l1 ++ (⟨1, "a.md", 3, "text/markdown"⟩ : FileDesc) :: l2 ∧
      removeFile c9state (1 : Rat) = l1 ++ l2 :=
  C9_unique_removal c9state ⟨1, "a.md", 3, "text/markdown"⟩ (by decide) (by decide)

/-! ## Pagination (claim C3) -/

theorem pagesLoop_closed (x : Rat) : pagesLoop x = (⌊x / 295⌋ + 1).toNat := by
  induction x using pagesLoop.induct with
  | case1 x h ih =>
    rw [pagesLoop, dif_pos h, ih]
    have hd : (x - 295) / 295 = x / 295 - 1 := by
      rw [sub_div]
      norm_num
    rw [hd, Int.floor_sub_one]
    have hnn : (0 : Int) ≤ ⌊x / 295⌋ :=
      Int.floor_nonneg.mpr (div_nonneg h (by norm_num))
    omega
  | case2 x h =>
    rw [pagesLoop, dif_neg h]
    have hx : x < 0 := not_le.mp h
    have hq : x / 295 < 0 := div_neg_of_neg_of_pos hx (by norm_num)
    have h2 : (⌊x / 295⌋ : Rat) ≤ x / 295 := Int.floor_le _
    have h4 : ⌊x / 295⌋ < 0 := by exact_mod_cast lt_of_le_of_lt h2 hq
    omega

/-- Claim C3 counterexample: at a rasterized image exactly one page tall
(canvas 210 wide and 295 high, so imgHeight = 295), the export produces
two pages while the claimed ceil(imageHeight / pageHeight) is one — the
loop condition heightLeft >= 0 appends a page after the remaining height
is already exhausted. -/
theorem C3_counterexample :
    (downloadPDF true 210 295).pagesInDoc = 2 ∧
    (⌈((295 : Rat) * 210 / 210) / 295⌉).toNat = 1 := by
  constructor
  · show pdfPageCount ((295 : Rat) * 210 / 210) = 2
    unfold pdfPageCount
    rw [pagesLoop_closed]
    have he : (((295 : Rat) * 210 / 210) - 295) / 295 = 0 := by norm_num
    rw [he]
    simp
  · have he : ((295 : Rat) * 210 / 210) / 295 = 1 := by norm_num
    rw [he]
    simp

/-- Claim C3 as amended: for a positive rasterized image the export
appends exactly floor(imageHeight / pageHeight) + 1 pages — the first page
plus one page per loop iteration, the loop running while the remaining
height is at least zero, so a trailing page is still appended when the
page height exactly divides the image height. -/
theorem C3_page_count (canvasWidth canvasHeight : Rat)
    (hw : 0 < canvasWidth) (hh : 0 < canvasHeight) :
    (downloadPDF true canvasWidth canvasHeight).pagesInDoc
      = (⌊(canvasHeight * 210 / canvasWidth) / 295⌋ + 1).toNat := by
  show pdfPageCount (canvasHeight * 210 / canvasWidth) = _
  unfold pdfPageCount
  rw [pagesLoop_closed]
  have hd : (canvasHeight * 210 / canvasWidth - 295) / 295
      = (canvasHeight * 210 / canvasWidth) / 295 - 1 := by
    rw [sub_div]
    norm_num
  rw [hd, Int.floor_sub_one]
  have hnn : (0 : Int) ≤ ⌊(canvasHeight * 210 / canvasWidth) / 295⌋ :=
    Int.floor_nonneg.mpr (le_of_lt (by positivity))
  omega

/-- Claim C3 as amended, instantiated: a 210 x 100 canvas yields one page. -/
theorem C3_page_count_witness :
    (downloadPDF true 210 100).pagesInDoc
      = (⌊((100 : Rat) * 210 / 210) / 295⌋ + 1).toNat :=
  C3_page_count 210 100 (by norm_num) (by norm_num)

/-! ## Extraction truncation (claim C4) -/

/-- Claim C4 counterexample: a markdown file whose decoded content is
exactly 50,000 characters long is returned verbatim without the marker,
while the claim requires content at or above 50,000 characters to be
truncated and marked — the code truncates only strictly above the
threshold (content.length > 50000). -/
theorem C4_counterexample :
    50000 ≤ (List.replicate 50000 'a').length ∧
    readFileContent "text/markdown" "notes.md" (List.replicate 50000 'a') true
      = Except.ok (List.replicate 50000 'a') ∧
    List.replicate 50000 'a'
      ≠ (List.replicate 50000 'a').take 50000 ++ truncMarker := by
  refine ⟨by rw [List.length_replicate], ?_, ?_⟩
  · unfold readFileContent
    rw [show readFileBranch "text/markdown" = ExtractBranch.textBranch from by decide]
    rw [if_pos rfl, List.length_replicate, if_neg (lt_irrefl 50000)]
  · intro hcontra
    have hlen := congrArg List.length hcontra
    have hm : 0 < truncMarker.length := by decide
    rw [List.length_append, List.length_take, List.length_replicate] at hlen
    omega

/-- Claim C4 as amended: for a file dispatched to the text branch whose
read succeeds, content of at most 50,000 characters is returned verbatim,
and content strictly above 50,000 characters is truncated to its first
50,000 characters followed by the fixed marker. -/
theorem C4_truncation (ftype fname : String) (content : List Char)
    (hb : readFileBranch ftype = ExtractBranch.textBranch) :
    (content.length ≤ 50000 →
        readFileContent ftype fname content true = Except.ok content)
  ∧ (50000 < content.length →
        readFileContent ftype fname content true
          = Except.ok (content.take 50000 ++ truncMarker)) := by
  unfold readFileContent
  rw [hb]
  constructor
  · intro hle
    simp [Nat.not_lt.mpr hle]
  · intro hgt
    simp [hgt]

/-- Claim C4 as amended, instantiated on a short markdown file. -/
theorem C4_truncation_witness :
    readFileContent "text/markdown" "notes.md" "hello".data true
      = Except.ok "hello".data :=
  (C4_truncation "text/markdown" "notes.md" "hello".data (by decide)).1 (by decide)


/-! ## Extraction totality over the allow-list (claim C10) -/

/-- Claim C10 counterexample: text/markdown is in the intake allow-list,
yet when the FileReader read fails the extraction promise rejects instead
of resolving, so extraction does not always resolve for allow-listed
files. -/
theorem C10_counterexample :
    "text/markdown" ∈ VALID_FILE_TYPES ∧
    readFileContent "text/markdown" "notes.md" [] false
      = Except.error "Failed to read file" := by
  decide

/-- Claim C10 as amended: for every type in the intake allow-list the
unsupported branch of readFileContent is unreachable; PDF and DOCX types
always resolve with their fixed placeholder, and the two markdown types
resolve with the decoded (possibly truncated) content whenever the
underlying read succeeds. -/
theorem C10_branch_total (ftype : String) (hft : ftype ∈ VALID_FILE_TYPES) :
    readFileBranch ftype ≠ ExtractBranch.unsupportedBranch ∧
    (ftype = "application/pdf" →
      ∀ (fname : String) (content : List Char) (readOk : Bool),
        readFileContent ftype fname content readOk
          = Except.ok (pdfPlaceholder fname)) ∧
    (ftype = "application/vnd.openxmlformats-officedocument.wordprocessingml.document" →
      ∀ (fname : String) (content : List Char) (readOk : Bool),
        readFileContent ftype fname content readOk
          = Except.ok (docxPlaceholder fname)) ∧
    ((ftype = "text/markdown" ∨ ftype = "text/x-markdown") →
      ∀ (fname : String) (content : List Char),
        readFileContent ftype fname content true
          = Except.ok (if 50000 < content.length
              then content.take 50000 ++ truncMarker else content)) := by
  simp only [VALID_FILE_TYPES, List.mem_cons, List.not_mem_nil, or_false] at hft
  rcases hft with rfl | rfl | rfl | rfl
  · refine ⟨by decide, ?_, ?_, ?_⟩
    · intro _ fname content readOk
      unfold readFileContent
      rw [show readFileBranch "application/pdf" = ExtractBranch.pdfBranch from by decide]
    · intro h
      exact absurd h (by decide)
    · intro h
      rcases h with h | h <;> exact absurd h (by decide)
  · refine ⟨by decide, ?_, ?_, ?_⟩
    · intro h
      exact absurd h (by decide)
    · intro h
      exact absurd h (by decide)
    · intro _ fname content
      unfold readFileContent
      rw [show readFileBranch "text/markdown" = ExtractBranch.textBranch from by decide]
      simp only [if_true]
      split_ifs <;> rfl
  · refine ⟨by decide, ?_, ?_, ?_⟩
    · intro h
      exact absurd h (by decide)
    · intro h
      exact absurd h (by decide)
    · intro _ fname content
      unfold readFileContent
      rw [show readFileBranch "text/x-markdown" = ExtractBranch.textBranch from by decide]
      simp only [if_true]
      split_ifs <;> rfl
  · refine ⟨by decide, ?_, ?_, ?_⟩
    · intro h
      exact absurd h (by decide)
    · intro _ fname content readOk
      unfold readFileContent
      rw [show readFileBranch
        "application/vnd.openxmlformats-officedocument.wordprocessingml.document"
          = ExtractBranch.docxBranch from by decide]
    · intro h
      rcases h with h | h <;> exact absurd h (by decide)

/-- Claim C10 as amended, instantiated on a PDF file. -/
theorem C10_branch_total_witness :
    readFileContent "application/pdf" "spec.pdf" [] true
      = Except.ok (pdfPlaceholder "spec.pdf") :=
  (C10_branch_total "application/pdf" (by decide)).2.1 rfl "spec.pdf" [] true

/-! ## Text-only submission (claim C5) -/

/-- Claim C5 counterexample: with zero files, an empty description and
non-empty additional info, the dispatched project_description equals the
additional-info text, which is neither the entered description nor the
fixed fallback string — the code falls back to additionalInfo before the
fixed fallback. -/
theorem C5_counterexample :
    generateBRD "" "extra notes" []
      = Except.ok (Request.fromInput "extra notes" "gemini-2.0-flash") ∧
    ("extra notes" : String) ≠ "" ∧
    ("extra notes" : String) ≠ "Project requirements" :=
  ⟨by decide, by decide, by decide⟩

/-- Claim C5 as amended: with zero attached files the composer sends one
request to the generate-from-text endpoint whose project_description is
the entered description when non-empty, otherwise the additional-info text
when that is non-empty, otherwise the fixed fallback string. -/
theorem C5_text_endpoint (pd ai : String) :
    (pd ≠ "" → generateBRD pd ai []
        = Except.ok (Request.fromInput pd "gemini-2.0-flash"))
  ∧ (pd = "" → ai ≠ "" → generateBRD pd ai []
        = Except.ok (Request.fromInput ai "gemini-2.0-flash"))
  ∧ (pd = "" → ai = "" → generateBRD pd ai []
        = Except.ok (Request.fromInput "Project requirements" "gemini-2.0-flash")) := by
  refine ⟨?_, ?_, ?_⟩
  · intro h
    simp [generateBRD, jsOr, h]
  · intro h1 h2
    simp [generateBRD, jsOr, h1, h2]
  · intro h1 h2
    simp [generateBRD, jsOr, h1, h2]

/-- Claim C5 as amended, instantiated on a non-empty description. -/
theorem C5_text_endpoint_witness :
    generateBRD "Build X" "" []
      = Except.ok (Request.fromInput "Build X" "gemini-2.0-flash") :=
  (C5_text_endpoint "Build X" "").1 (by decide)

/-! ## Submission with files and the BRD heuristic (claim C6) -/

/-- Claim C6 counterexample: with the non-empty entered description and
empty additional info, a heuristic match replaces the entered description
by the improve-existing default, while the same user inputs without a
match send the entered description — the match changes the description
itself, not only its default text. -/
theorem C6_counterexample :
    generateBRD "Build a payroll system" "" [c6brdFile]
      = Except.ok (Request.withFiles "Improve existing BRD document"
          [⟨"BRD.md", "old content".data, "text/markdown"⟩] "gemini-2.0-flash") ∧
    generateBRD "Build a payroll system" "" [c6plainFile]
      = Except.ok (Request.withFiles "Build a payroll system"
          [⟨"notes.md", "old content".data, "text/markdown"⟩] "gemini-2.0-flash") ∧
    ("Improve existing BRD document" : String) ≠ "Build a payroll system" :=
  ⟨by decide, by decide, by decide⟩

/-- Claim C6 as amended: with at least one attached file the
generate-with-files endpoint is used whether or not the filename heuristic
matches, with identical uploaded_files and model fields; only the
project_description differs: the additional info defaulting to the
improve-existing text on a match (the entered project description is
ignored), and the entered description, then additional info, then the
files fallback otherwise. -/
theorem C6_files_endpoint (pd ai : String) (files : List UploadedFile)
    (contents : List UploadedFilePayload)
    (hread : readAll files = Except.ok contents) (hne : 0 < files.length) :
    generateBRD pd ai files
      = Except.ok (Request.withFiles
          (if hasExistingBRD files then jsOr ai "Improve existing BRD document"
           else jsOr pd (jsOr ai "Project requirements from uploaded files"))
          contents "gemini-2.0-flash") := by
  simp only [generateBRD]
  rw [if_pos hne, hread]
  cases h : hasExistingBRD files <;> simp [h]

/-- Claim C6 as amended, instantiated on a non-matching single file. -/
theorem C6_files_endpoint_witness :
    generateBRD "" "" [c6plainFile]
      = Except.ok (Request.withFiles
          (if hasExistingBRD [c6plainFile] then jsOr "" "Improve existing BRD document"
           else jsOr "" (jsOr "" "Project requirements from uploaded files"))
          [⟨"notes.md", "old content".data, "text/markdown"⟩] "gemini-2.0-flash") :=
  C6_files_endpoint "" "" [c6plainFile]
    [⟨"notes.md", "old content".data, "text/markdown"⟩] (by decide) (by decide)

/-! ## All-or-nothing join (claim C8) -/

theorem readAll_error (files : List UploadedFile) (f : UploadedFile)
    (hf : f ∈ files) (e0 : String) (hfail : readOne f = Except.error e0) :
    ∃ e, readAll files = Except.error e := by
  induction files with
  | nil => cases hf
  | cons g gs ih =>
    rcases List.mem_cons.mp hf with rfl | hmem
    · refine ⟨e0, ?_⟩
      unfold readAll
      rw [hfail]
    · cases hg : readOne g with
      | error e =>
        refine ⟨e, ?_⟩
        unfold readAll
        rw [hg]
      | ok p =>
        obtain ⟨e, he⟩ := ih hmem
        refine ⟨e, ?_⟩
        unfold readAll
        rw [hg, he]

/-- Claim C8: for a submission with at least one attached file, a failing
read of any file in the batch fails the whole submission: the
all-or-nothing join rejects, no network request is dispatched, no new
result is produced and the error state is set. -/
theorem C8_read_failure (pd ai : String) (files : List UploadedFile)
    (f : UploadedFile) (hf : f ∈ files) (e0 : String)
    (hfail : readOne f = Except.error e0) :
    ∃ e, generateBRD pd ai files = Except.error e := by
  obtain ⟨e, he⟩ := readAll_error files f hf e0 hfail
  refine ⟨e, ?_⟩
  simp only [generateBRD]
  rw [if_pos (List.length_pos.mpr (List.ne_nil_of_mem hf)), he]

/-- Claim C8, instantiated on a single unreadable markdown file. -/
theorem C8_read_failure_witness :
    ∃ e, generateBRD "desc" "" [c8file] = Except.error e :=
  C8_read_failure "desc" "" [c8file] c8file (by decide)
    "Failed to read file" (by decide)
